import Mathlib

/-!
Shallow embedding of the pet-simulation core of `src/main.ino`
(M5StickC Plus2 virtual-pet firmware).

The embedded parts are the pure state-transition fragments of the sketch:
the `PetStats` record and `PetState` enumeration, the periodic tick
`updateStats`, the resume-time decay inside `loadStats` (lines 266-294),
the elapsed-minutes reconciliation inside `loadStats` (lines 243-269),
the snapshot writer `saveStats`, the caregiving actions `feedPet` and
`playWithPet`, sleep entry/exit, the shake handling of `loop` together
with `handleShakeSickness`, and `resetPet`.  C++ `int` stats are modelled
as `Int` (all arithmetic stays far from 32-bit overflow), `unsigned long`
age and timestamps as `Nat`.  The persisted Preferences namespace is
modelled as a record of `Option` fields: `none` means the key is absent,
and `Option.getD` mirrors the per-key default of `prefs.getInt(key, d)`.
The `state` key is stored in flash as the `int` value of the enum; since
that encoding is injective on the enum values written by `saveStats`, the
store field holds the `PetState` itself.
-/

/-- The `PetState` enumeration of `main.ino` (lines 62-71). -/
inductive PetState where
  | STATE_IDLE
  | STATE_HAPPY
  | STATE_EATING
  | STATE_SLEEPING
  | STATE_HUNGRY
  | STATE_SICK
  | STATE_PLAYING
  | STATE_VOMITING
deriving DecidableEq, Repr

open PetState

/-- The `PetStats` struct (lines 87-93): four vitality statistics and age. -/
structure PetStats where
  hunger : Int
  happiness : Int
  energy : Int
  health : Int
  age : Nat
deriving DecidableEq, Repr

/-- The mutable globals `pet` and `currentState` bundled into one record. -/
structure PetSim where
  pet : PetStats
  currentState : PetState
deriving DecidableEq, Repr

/-- Initial globals: `PetStats pet = {80, 80, 100, 100, 0}` with
`currentState = STATE_IDLE` (lines 96-97). -/
def defaultPet : PetStats :=
  { hunger := 80, happiness := 80, energy := 100, health := 100, age := 0 }

def initSim : PetSim := { pet := defaultPet, currentState := STATE_IDLE }

/-- The wake-cause classification derived from
`esp_sleep_get_wakeup_cause()`: `TIMER` is `ESP_SLEEP_WAKEUP_TIMER`,
`BUTTON` is `ESP_SLEEP_WAKEUP_EXT0`, `FRESH_BOOT` is every other value. -/
inductive WakeCause where
  | FRESH_BOOT
  | BUTTON
  | TIMER
deriving DecidableEq, Repr

/-- An RTC reading, the fields of `M5.Rtc.getDateTime()` that the sketch
uses: year, month, day of month, hours, minutes. -/
structure DateTime where
  year : Int
  month : Int
  date : Nat
  hours : Nat
  minutes : Nat
deriving DecidableEq, Repr

/-- The `"puppy"` Preferences namespace as a record of optional keys;
`none` models an absent key. -/
structure PrefsStore where
  hunger : Option Int
  happiness : Option Int
  energy : Option Int
  health : Option Int
  age : Option Nat
  state : Option PetState
  saveTime : Option Nat
  saveMonth : Option Int
deriving DecidableEq, Repr

/-- A store with no keys written at all. -/
def emptyStore : PrefsStore :=
  { hunger := none, happiness := none, energy := none, health := none,
    age := none, state := none, saveTime := none, saveMonth := none }

/-- `saveStats` (lines 198-215): writes every field of the snapshot,
with `saveTime = date*24*60 + hours*60 + minutes` and `saveMonth`. -/
def saveStats (s : PetSim) (dt : DateTime) : PrefsStore :=
  { hunger := some s.pet.hunger
  , happiness := some s.pet.happiness
  , energy := some s.pet.energy
  , health := some s.pet.health
  , age := some s.pet.age
  , state := some s.currentState
  , saveTime := some (dt.date * 24 * 60 + dt.hours * 60 + dt.minutes)
  , saveMonth := some dt.month }

/-- The elapsed-minutes computation of `loadStats` before the cap
(lines 246-264), for a TIMER or BUTTON wake. -/
def rawElapsed (savedTime : Nat) (savedMonth : Int) (wake : WakeCause)
    (dt : DateTime) : Nat :=
  let currentTime : Nat := dt.date * 24 * 60 + dt.hours * 60 + dt.minutes
  if savedTime > 0 ∧ dt.year > 2020 then
    if dt.month = savedMonth ∧ currentTime ≥ savedTime then
      currentTime - savedTime
    else if dt.month = savedMonth ∧ currentTime < savedTime then
      1
    else
      if wake = WakeCause.TIMER then 15 else 5
  else
    if wake = WakeCause.TIMER then 15 else 1

/-- The cap of `loadStats` (lines 266-269): elapsed time is limited to 60
minutes. -/
def cappedElapsed (savedTime : Nat) (savedMonth : Int) (wake : WakeCause)
    (dt : DateTime) : Nat :=
  let e := rawElapsed savedTime savedMonth wake dt
  if e > 60 then 60 else e

/-- The decay block of `loadStats` (lines 271-292), applied to the stats
just read from flash: `decayTicks = elapsedMinutes / 2`; a sleeping
snapshot regains energy, any other snapshot decays hunger, happiness and
energy and is forced to `STATE_IDLE`; health decays when the resulting
hunger or happiness is below 10; age grows by the elapsed minutes. -/
def applyDecay (elapsedMinutes : Nat) (savedState : PetState)
    (p : PetStats) : PetSim :=
  let decayTicks : Nat := elapsedMinutes / 2
  let s1 : PetSim :=
    if savedState = STATE_SLEEPING then
      { pet := { p with energy := min 100 (p.energy + (decayTicks : Int)) }
      , currentState := STATE_SLEEPING }
    else
      { pet := { p with
          hunger := max 0 (p.hunger - (decayTicks : Int))
        , happiness := max 0 (p.happiness - (decayTicks : Int))
        , energy := max 0 (p.energy - ((decayTicks / 2 : Nat) : Int)) }
      , currentState := STATE_IDLE }
  let s2 : PetSim :=
    if s1.pet.hunger < 10 ∨ s1.pet.happiness < 10 then
      { s1 with pet := { s1.pet with
          health := max 0 (s1.pet.health - (decayTicks : Int)) } }
    else s1
  { s2 with pet := { s2.pet with age := s2.pet.age + elapsedMinutes } }

/-- `loadStats` (lines 218-303) as a function of the persisted store, the
in-memory globals at entry, the wake cause and the current RTC reading.
If the `hunger` key is absent the globals are left at the defaults;
otherwise every field is read with its per-key default, then a TIMER or
BUTTON wake applies the capped elapsed-time decay while any other wake
restores the saved state without decay, mapping SLEEPING to IDLE. -/
def loadStats (prefs : PrefsStore) (s : PetSim) (wake : WakeCause)
    (dt : DateTime) : PetSim :=
  if prefs.hunger = none then
    s
  else
    let pet0 : PetStats :=
      { hunger := prefs.hunger.getD 80
      , happiness := prefs.happiness.getD 80
      , energy := prefs.energy.getD 100
      , health := prefs.health.getD 100
      , age := prefs.age.getD 0 }
    let savedState := prefs.state.getD STATE_IDLE
    let savedTime := prefs.saveTime.getD 0
    let savedMonth := prefs.saveMonth.getD 0
    if wake = WakeCause.TIMER ∨ wake = WakeCause.BUTTON then
      applyDecay (cappedElapsed savedTime savedMonth wake dt) savedState pet0
    else
      { pet := pet0
      , currentState :=
          if savedState = STATE_SLEEPING then STATE_IDLE else savedState }

/-- The elapsed-minutes estimate the boot path actually uses: 0 when no
snapshot exists (early return at line 222) or on a fresh boot (line 295),
the capped reconciliation otherwise. -/
def elapsedMinutesOf (prefs : PrefsStore) (wake : WakeCause)
    (dt : DateTime) : Nat :=
  if prefs.hunger = none then 0
  else if wake = WakeCause.TIMER ∨ wake = WakeCause.BUTTON then
    cappedElapsed (prefs.saveTime.getD 0) (prefs.saveMonth.getD 0) wake dt
  else 0

/-- `resetPet` (lines 306-317): stats back to defaults, state to IDLE
(the Preferences clear is the external store side, not modelled here). -/
def resetPet : PetSim :=
  { pet := { hunger := 80, happiness := 80, energy := 100, health := 100
           , age := 0 }
  , currentState := STATE_IDLE }

/-- `updateStats` (lines 919-959).  While sleeping: energy rises by 5
(capped) and the function returns early, so nothing else changes.  Awake:
hunger, happiness, energy each fall by 1 (clamped); health falls by 2
when hunger or happiness is below 20, else rises by 1 when hunger > 60,
happiness > 60 and energy > 40; low hunger turns IDLE into HUNGRY; a
recovered SICK pet turns IDLE.  `minuteElapsed` models the
`millis() - lastAgeUpdate > 60000` guard of the age increment. -/
def updateStats (minuteElapsed : Bool) (s : PetSim) : PetSim :=
  if s.currentState = STATE_SLEEPING then
    { s with pet := { s.pet with energy := min 100 (s.pet.energy + 5) } }
  else
    let hunger := max 0 (s.pet.hunger - 1)
    let happiness := max 0 (s.pet.happiness - 1)
    let energy := max 0 (s.pet.energy - 1)
    let health :=
      if hunger < 20 ∨ happiness < 20 then
        max 0 (s.pet.health - 2)
      else if hunger > 60 ∧ happiness > 60 ∧ energy > 40 then
        min 100 (s.pet.health + 1)
      else
        s.pet.health
    let st1 :=
      if hunger < 30 ∧ s.currentState = STATE_IDLE then STATE_HUNGRY
      else s.currentState
    let st2 :=
      if st1 = STATE_SICK ∧ health > 60 ∧ happiness > 50 ∧ energy > 40 then
        STATE_IDLE
      else st1
    let age := if minuteElapsed then s.pet.age + 1 else s.pet.age
    { pet := { hunger := hunger, happiness := happiness, energy := energy
             , health := health, age := age }
    , currentState := st2 }

/-- Outcome of `feedPet`: the early-return refusal or a completed feed. -/
inductive FeedResult where
  | AlreadyFull
  | Fed
deriving DecidableEq, Repr

/-- `feedPet` (lines 745-797): refused without mutation when
`hunger >= 100`; otherwise hunger + 25 and happiness + 5, both capped at
100, ending in STATE_HAPPY. -/
def feedPet (s : PetSim) : PetSim × FeedResult :=
  if s.pet.hunger ≥ 100 then
    (s, FeedResult.AlreadyFull)
  else
    ( { pet := { s.pet with
          hunger := min 100 (s.pet.hunger + 25)
        , happiness := min 100 (s.pet.happiness + 5) }
      , currentState := STATE_HAPPY }
    , FeedResult.Fed )

/-- Outcome of `playWithPet`: the early-return refusal or a completed
play session. -/
inductive PlayResult where
  | TooTired
  | Played
deriving DecidableEq, Repr

/-- `playWithPet` (lines 800-856): refused without mutation when
`energy < 20`; otherwise happiness + 20 (capped), energy - 15 and
hunger - 5 (clamped), ending in STATE_HAPPY. -/
def playWithPet (s : PetSim) : PetSim × PlayResult :=
  if s.pet.energy < 20 then
    (s, PlayResult.TooTired)
  else
    ( { pet := { s.pet with
          happiness := min 100 (s.pet.happiness + 20)
        , energy := max 0 (s.pet.energy - 15)
        , hunger := max 0 (s.pet.hunger - 5) }
      , currentState := STATE_HAPPY }
    , PlayResult.Played )

/-- `putToSleep` (lines 859-868): enter STATE_SLEEPING. -/
def putToSleep (s : PetSim) : PetSim :=
  { s with currentState := STATE_SLEEPING }

/-- `wakeUp` (lines 871-881): back to IDLE, only from STATE_SLEEPING. -/
def wakeUp (s : PetSim) : PetSim :=
  if s.currentState ≠ STATE_SLEEPING then s
  else { s with currentState := STATE_IDLE }

/-- `handleShakeSickness` (lines 884-916): no effect when already SICK or
VOMITING; otherwise health - 15 and happiness - 20 (clamped) and, after
the transient VOMITING animation, the pet ends in STATE_SICK. -/
def handleShakeSickness (s : PetSim) : PetSim :=
  if s.currentState = STATE_SICK ∨ s.currentState = STATE_VOMITING then
    s
  else
    { pet := { s.pet with
        health := max 0 (s.pet.health - 15)
      , happiness := max 0 (s.pet.happiness - 20) }
    , currentState := STATE_SICK }

/-- The shake branch of `loop` (lines 1189-1200): a detected shake wakes
a sleeping pet, sickens a pet that is neither SICK nor VOMITING, and does
nothing otherwise. -/
def shakeEvent (s : PetSim) : PetSim :=
  if s.currentState = STATE_SLEEPING then
    wakeUp s
  else if s.currentState ≠ STATE_SICK ∧ s.currentState ≠ STATE_VOMITING then
    handleShakeSickness s
  else
    s

/-- The documented range invariant of the four vitality statistics. -/
def inBounds (p : PetStats) : Prop :=
  0 ≤ p.hunger ∧ p.hunger ≤ 100 ∧
  0 ≤ p.happiness ∧ p.happiness ≤ 100 ∧
  0 ≤ p.energy ∧ p.energy ≤ 100 ∧
  0 ≤ p.health ∧ p.health ≤ 100

instance (p : PetStats) : Decidable (inBounds p) := by
  unfold inBounds; infer_instance

/-- States reachable by the firmware: the initial globals, periodic
ticks, the caregiving actions, sleep entry and exit, shakes, reset, and
a full save-then-boot cycle under any wake cause and RTC readings. -/
inductive Reachable : PetSim → Prop where
  | init : Reachable initSim
  | tick : ∀ (b : Bool) (s : PetSim), Reachable s → Reachable (updateStats b s)
  | feed : ∀ (s : PetSim), Reachable s → Reachable (feedPet s).1
  | play : ∀ (s : PetSim), Reachable s → Reachable (playWithPet s).1
  | sleep : ∀ (s : PetSim), Reachable s → Reachable (putToSleep s)
  | wake : ∀ (s : PetSim), Reachable s → Reachable (wakeUp s)
  | shake : ∀ (s : PetSim), Reachable s → Reachable (shakeEvent s)
  | reset : Reachable resetPet
  | boot : ∀ (s : PetSim) (dt dt2 : DateTime) (w : WakeCause), Reachable s →
      Reachable (loadStats (saveStats s dt) initSim w dt2)

theorem updateStats_inBounds (b : Bool) (s : PetSim) (h : inBounds s.pet) :
    inBounds (updateStats b s).pet := by
  obtain ⟨h1, h2, h3, h4, h5, h6, h7, h8⟩ := h
  unfold updateStats inBounds
  dsimp only
  split_ifs <;> (try dsimp only) <;> omega

theorem applyDecay_inBounds (e : Nat) (st : PetState) (p : PetStats)
    (h : inBounds p) : inBounds (applyDecay e st p).pet := by
  obtain ⟨h1, h2, h3, h4, h5, h6, h7, h8⟩ := h
  unfold applyDecay inBounds
  dsimp only
  split_ifs <;> (try dsimp only) <;> omega

theorem feedPet_inBounds (s : PetSim) (h : inBounds s.pet) :
    inBounds (feedPet s).1.pet := by
  obtain ⟨h1, h2, h3, h4, h5, h6, h7, h8⟩ := h
  unfold feedPet inBounds
  dsimp only
  split_ifs <;> (try dsimp only) <;> omega

theorem playWithPet_inBounds (s : PetSim) (h : inBounds s.pet) :
    inBounds (playWithPet s).1.pet := by
  obtain ⟨h1, h2, h3, h4, h5, h6, h7, h8⟩ := h
  unfold playWithPet inBounds
  dsimp only
  split_ifs <;> (try dsimp only) <;> omega

theorem wakeUp_pet (s : PetSim) : (wakeUp s).pet = s.pet := by
  unfold wakeUp
  split_ifs <;> rfl

theorem shakeEvent_inBounds (s : PetSim) (h : inBounds s.pet) :
    inBounds (shakeEvent s).pet := by
  obtain ⟨h1, h2, h3, h4, h5, h6, h7, h8⟩ := h
  unfold shakeEvent handleShakeSickness wakeUp inBounds
  dsimp only
  split_ifs <;> (try dsimp only) <;> omega

theorem loadStats_saveStats_inBounds (s : PetSim) (dt dt2 : DateTime)
    (w : WakeCause) (h : inBounds s.pet) :
    inBounds (loadStats (saveStats s dt) initSim w dt2).pet := by
  unfold loadStats saveStats
  dsimp only [Option.getD_some]
  rw [if_neg (by simp)]
  split_ifs with hwake
  · exact applyDecay_inBounds _ _ _ h
  · exact h
  · exact h

/-- C1: every reachable state keeps hunger, happiness, energy and health
in [0, 100]; each mutating operation (awake tick, sleeping tick,
decay-on-resume, feed, play, shake sickness, reset) preserves the bounds
by clamping. -/
theorem reachable_inBounds (s : PetSim) (h : Reachable s) :
    inBounds s.pet := by
  induction h with
  | init => decide
  | tick b s _ ih => exact updateStats_inBounds b s ih
  | feed s _ ih => exact feedPet_inBounds s ih
  | play s _ ih => exact playWithPet_inBounds s ih
  | sleep s _ ih => exact ih
  | wake s _ ih => rw [wakeUp_pet]; exact ih
  | shake s _ ih => exact shakeEvent_inBounds s ih
  | reset => decide
  | boot s dt dt2 w _ ih => exact loadStats_saveStats_inBounds s dt dt2 w ih

/-- C1 witness: the invariant instantiated at the initial state. -/
theorem reachable_inBounds_witness : inBounds initSim.pet :=
  reachable_inBounds initSim Reachable.init

/-- C2: for a snapshot whose saved state is not SLEEPING, the resume
decay computes ticks = elapsedMinutes / 2, subtracts ticks from hunger
and happiness and ticks / 2 from energy (clamped at 0), forces
STATE_IDLE, subtracts ticks from health (clamped at 0) exactly when the
resulting hunger or happiness is below 10, and adds elapsedMinutes to
age; on the default stats with 30 elapsed minutes, hunger and happiness
drop by 15, energy by 7, and age grows by 30. -/
theorem applyDecay_awake_spec (e : Nat) (st : PetState) (p : PetStats)
    (hst : st ≠ STATE_SLEEPING) :
    ((applyDecay e st p).pet.hunger = max 0 (p.hunger - ((e / 2 : Nat) : Int)) ∧
     (applyDecay e st p).pet.happiness =
       max 0 (p.happiness - ((e / 2 : Nat) : Int)) ∧
     (applyDecay e st p).pet.energy =
       max 0 (p.energy - ((e / 2 / 2 : Nat) : Int)) ∧
     (applyDecay e st p).currentState = STATE_IDLE ∧
     (applyDecay e st p).pet.health =
       (if max 0 (p.hunger - ((e / 2 : Nat) : Int)) < 10 ∨
           max 0 (p.happiness - ((e / 2 : Nat) : Int)) < 10 then
          max 0 (p.health - ((e / 2 : Nat) : Int))
        else p.health) ∧
     (applyDecay e st p).pet.age = p.age + e) ∧
    (applyDecay 30 STATE_IDLE defaultPet).pet.hunger = defaultPet.hunger - 15 ∧
    (applyDecay 30 STATE_IDLE defaultPet).pet.happiness =
      defaultPet.happiness - 15 ∧
    (applyDecay 30 STATE_IDLE defaultPet).pet.energy = defaultPet.energy - 7 ∧
    (applyDecay 30 STATE_IDLE defaultPet).pet.age = defaultPet.age + 30 := by
  refine ⟨?_, by decide, by decide, by decide, by decide⟩
  unfold applyDecay
  dsimp only
  rw [if_neg hst]
  dsimp only
  split_ifs <;> exact ⟨rfl, rfl, rfl, rfl, rfl, rfl⟩

/-- C2 witness: the decay law applied at 4 elapsed minutes on the
default stats. -/
theorem applyDecay_awake_spec_witness :
    (applyDecay 4 STATE_IDLE defaultPet).pet.age = defaultPet.age + 4 :=
  (applyDecay_awake_spec 4 STATE_IDLE defaultPet (by decide)).1.2.2.2.2.2

/-- C3: the elapsed-minutes estimate of the boot path is always an
integer in [0, 60], for every store, wake cause and clock reading. -/
theorem elapsedMinutesOf_le (prefs : PrefsStore) (wake : WakeCause)
    (dt : DateTime) :
    0 ≤ elapsedMinutesOf prefs wake dt ∧
    elapsedMinutesOf prefs wake dt ≤ 60 := by
  refine ⟨Nat.zero_le _, ?_⟩
  unfold elapsedMinutesOf cappedElapsed
  dsimp only
  split_ifs <;> omega

/-- C4: writing a snapshot and loading it on a FRESH_BOOT reproduces all
five stats with no decay and restores the state, mapping SLEEPING to
IDLE. -/
theorem saveStats_loadStats_roundtrip (s : PetSim) (dt dt2 : DateTime) :
    (loadStats (saveStats s dt) initSim WakeCause.FRESH_BOOT dt2).pet =
      s.pet ∧
    (loadStats (saveStats s dt) initSim WakeCause.FRESH_BOOT dt2).currentState =
      (if s.currentState = STATE_SLEEPING then STATE_IDLE
       else s.currentState) := by
  unfold loadStats saveStats
  dsimp only [Option.getD_some]
  rw [if_neg (by simp), if_neg (by simp)]
  exact ⟨rfl, rfl⟩

/-- C5 counterexample: zero-elapsed decay is not a no-op on
behavior_state — a SICK snapshot resumes as IDLE. -/
theorem applyDecay_zero_changes_state :
    (applyDecay 0 STATE_SICK defaultPet).currentState = STATE_IDLE ∧
    STATE_IDLE ≠ STATE_SICK := by decide

/-- C5 (amended): with elapsedMinutes = 0 all five stats are unchanged
(for in-range stats), but behavior_state is preserved only when the
saved state is SLEEPING or already IDLE; any other saved state is forced
to IDLE by the decay path. -/
theorem applyDecay_zero (st : PetState) (p : PetStats) (h : inBounds p) :
    (applyDecay 0 st p).pet = p ∧
    (applyDecay 0 st p).currentState =
      (if st = STATE_SLEEPING then STATE_SLEEPING else STATE_IDLE) := by
  obtain ⟨h1, h2, h3, h4, h5, h6, h7, h8⟩ := h
  unfold applyDecay
  dsimp only
  simp only [Nat.zero_div, Nat.cast_zero, sub_zero, add_zero,
    max_eq_right h1, max_eq_right h3, max_eq_right h5, max_eq_right h7,
    min_eq_right h6]
  split_ifs <;> simp [max_eq_right h7]

/-- C5 witness: the amended statement at a SICK snapshot of the default
stats. -/
theorem applyDecay_zero_witness :
    (applyDecay 0 STATE_SICK defaultPet).pet = defaultPet ∧
    (applyDecay 0 STATE_SICK defaultPet).currentState =
      (if STATE_SICK = STATE_SLEEPING then STATE_SLEEPING
       else STATE_IDLE) :=
  applyDecay_zero STATE_SICK defaultPet (by decide)

/-- A store holding only the hunger key, as a power-interrupted save
could leave it. -/
def hungerOnlyStore : PrefsStore :=
  { hunger := some 5, happiness := none, energy := none, health := none,
    age := none, state := none, saveTime := none, saveMonth := none }

/-- A plausible RTC reading used for concrete boots. -/
def someClock : DateTime :=
  { year := 2024, month := 6, date := 1, hours := 0, minutes := 0 }

/-- C6 counterexample: a record holding only the hunger key (value 5) is
not treated as absent — the load mixes the saved hunger with the per-key
defaults of the missing fields instead of falling back to the full
defaults. -/
theorem loadStats_mixes_fields :
    (loadStats hungerOnlyStore initSim WakeCause.FRESH_BOOT someClock).pet =
      { hunger := 5, happiness := 80, energy := 100, health := 100
      , age := 0 } ∧
    (loadStats hungerOnlyStore initSim WakeCause.FRESH_BOOT someClock).pet ≠
      defaultPet := by decide

/-- C6 (amended): the load treats the record as absent — leaving the
in-memory defaults untouched — exactly when the `hunger` key is missing;
when `hunger` is present, every other missing field is filled with its
own per-key default, so an incomplete record is mixed with defaults
rather than discarded. -/
theorem loadStats_absent_iff_no_hunger (prefs : PrefsStore) (s : PetSim)
    (w : WakeCause) (dt : DateTime) (h : prefs.hunger = none) :
    loadStats prefs s w dt = s := by
  unfold loadStats
  rw [if_pos h]

/-- C6 witness: booting against an empty store keeps the defaults. -/
theorem loadStats_absent_iff_no_hunger_witness :
    loadStats emptyStore initSim WakeCause.TIMER someClock = initSim :=
  loadStats_absent_iff_no_hunger emptyStore initSim WakeCause.TIMER
    someClock rfl

theorem rawElapsed_month_mismatch_timer (savedTime : Nat) (savedMonth : Int)
    (dt : DateTime) (htime : 0 < savedTime) (hyear : 2020 < dt.year)
    (hmonth : dt.month ≠ savedMonth) :
    rawElapsed savedTime savedMonth WakeCause.TIMER dt = 15 := by
  unfold rawElapsed
  dsimp only
  rw [if_pos ⟨htime, hyear⟩, if_neg (fun h => hmonth h.1),
    if_neg (fun h => hmonth h.1), if_pos rfl]

theorem rawElapsed_month_mismatch_button (savedTime : Nat) (savedMonth : Int)
    (dt : DateTime) (htime : 0 < savedTime) (hyear : 2020 < dt.year)
    (hmonth : dt.month ≠ savedMonth) :
    rawElapsed savedTime savedMonth WakeCause.BUTTON dt = 5 := by
  unfold rawElapsed
  dsimp only
  rw [if_pos ⟨htime, hyear⟩, if_neg (fun h => hmonth h.1),
    if_neg (fun h => hmonth h.1), if_neg (by decide)]

/-- C7: with a snapshot present, a positive saved timestamp and a
plausible clock year, a month mismatch yields exactly the fixed
heuristic — 15 elapsed minutes for a TIMER wake and 5 for a BUTTON
wake — regardless of the actual timestamps. -/
theorem month_mismatch_heuristic (prefs : PrefsStore) (dt : DateTime)
    (hsnap : ¬prefs.hunger = none)
    (htime : 0 < prefs.saveTime.getD 0)
    (hyear : 2020 < dt.year)
    (hmonth : dt.month ≠ prefs.saveMonth.getD 0) :
    elapsedMinutesOf prefs WakeCause.TIMER dt = 15 ∧
    elapsedMinutesOf prefs WakeCause.BUTTON dt = 5 := by
  have ht := rawElapsed_month_mismatch_timer (prefs.saveTime.getD 0)
    (prefs.saveMonth.getD 0) dt htime hyear hmonth
  have hb := rawElapsed_month_mismatch_button (prefs.saveTime.getD 0)
    (prefs.saveMonth.getD 0) dt htime hyear hmonth
  unfold elapsedMinutesOf cappedElapsed
  dsimp only
  rw [if_neg hsnap, if_neg hsnap, if_pos (Or.inl rfl),
    if_pos (Or.inr rfl), ht, hb]
  decide

/-- An RTC reading in June used to write a snapshot. -/
def juneClock : DateTime :=
  { year := 2024, month := 6, date := 1, hours := 1, minutes := 40 }

/-- An RTC reading one month later. -/
def julyClock : DateTime :=
  { year := 2024, month := 7, date := 1, hours := 0, minutes := 0 }

/-- C7 witness: a June snapshot resumed in July takes the heuristic. -/
theorem month_mismatch_heuristic_witness :
    elapsedMinutesOf (saveStats initSim juneClock) WakeCause.TIMER
      julyClock = 15 ∧
    elapsedMinutesOf (saveStats initSim juneClock) WakeCause.BUTTON
      julyClock = 5 :=
  month_mismatch_heuristic (saveStats initSim juneClock) julyClock
    (by decide) (by decide) (by decide) (by decide)

/-- C8: feed is refused with no mutation exactly at hunger 100
(AlreadyFull); play is refused with no mutation exactly below energy 20
(TooTired); otherwise feed adds 25 hunger and 5 happiness (capped at
100) and play adds 20 happiness, removes 15 energy and 5 hunger
(clamped). -/
theorem feed_play_spec (s : PetSim) (hb : s.pet.hunger ≤ 100) :
    ((feedPet s).2 = FeedResult.AlreadyFull ↔ s.pet.hunger = 100) ∧
    ((feedPet s).2 = FeedResult.AlreadyFull → (feedPet s).1 = s) ∧
    ((feedPet s).2 = FeedResult.Fed →
      (feedPet s).1.pet =
        { s.pet with
            hunger := min 100 (s.pet.hunger + 25)
          , happiness := min 100 (s.pet.happiness + 5) }) ∧
    ((playWithPet s).2 = PlayResult.TooTired ↔ s.pet.energy < 20) ∧
    ((playWithPet s).2 = PlayResult.TooTired → (playWithPet s).1 = s) ∧
    ((playWithPet s).2 = PlayResult.Played →
      (playWithPet s).1.pet =
        { s.pet with
            happiness := min 100 (s.pet.happiness + 20)
          , energy := max 0 (s.pet.energy - 15)
          , hunger := max 0 (s.pet.hunger - 5) }) := by
  unfold feedPet playWithPet
  dsimp only
  split_ifs with hf hp hp <;>
    refine ⟨?_, ?_, ?_, ?_, ?_, ?_⟩ <;> simp_all <;> omega

/-- C8 witness: the refusal conditions evaluated on the initial state. -/
theorem feed_play_spec_witness :
    initSim.pet.hunger ≤ 100 ∧
    ((feedPet initSim).2 = FeedResult.AlreadyFull ↔
      initSim.pet.hunger = 100) :=
  ⟨by decide, (feed_play_spec initSim (by decide)).1⟩

/-- C9: one sleeping tick raises energy to min(100, energy + 5) and
changes nothing else — hunger, happiness, health, behavior_state and age
are untouched, the per-minute age increment included. -/
theorem tickSleeping_spec (b : Bool) (s : PetSim)
    (h : s.currentState = STATE_SLEEPING) :
    (updateStats b s).pet.energy = min 100 (s.pet.energy + 5) ∧
    (updateStats b s).pet.hunger = s.pet.hunger ∧
    (updateStats b s).pet.happiness = s.pet.happiness ∧
    (updateStats b s).pet.health = s.pet.health ∧
    (updateStats b s).pet.age = s.pet.age ∧
    (updateStats b s).currentState = s.currentState := by
  unfold updateStats
  rw [if_pos h]
  exact ⟨rfl, rfl, rfl, rfl, rfl, rfl⟩

/-- A sleeping pet at energy 90, the scenario of the spec. -/
def sleepingSim : PetSim :=
  { pet := { hunger := 80, happiness := 80, energy := 90, health := 100
           , age := 0 }
  , currentState := STATE_SLEEPING }

/-- C9 witness: a sleeping tick at energy 90 yields 95. -/
theorem tickSleeping_spec_witness :
    (updateStats false sleepingSim).pet.energy = 95 :=
  Eq.trans (tickSleeping_spec false sleepingSim rfl).1 (by decide)

/-- C10: a shake wakes a sleeping pet to IDLE with no stat change;
otherwise, unless already SICK or VOMITING, it removes 15 health and 20
happiness (clamped at 0) and leaves the pet SICK; when already SICK or
VOMITING it changes nothing. -/
theorem shakeEvent_spec (s : PetSim) :
    (s.currentState = STATE_SLEEPING →
      shakeEvent s = { s with currentState := STATE_IDLE }) ∧
    (s.currentState ≠ STATE_SLEEPING → s.currentState ≠ STATE_SICK →
      s.currentState ≠ STATE_VOMITING →
      shakeEvent s =
        { pet := { s.pet with
            health := max 0 (s.pet.health - 15)
          , happiness := max 0 (s.pet.happiness - 20) }
        , currentState := STATE_SICK }) ∧
    (s.currentState = STATE_SICK ∨ s.currentState = STATE_VOMITING →
      shakeEvent s = s) := by
  refine ⟨?_, ?_, ?_⟩
  · intro h
    unfold shakeEvent wakeUp
    rw [if_pos h, if_neg (not_not_intro h)]
  · intro h1 h2 h3
    unfold shakeEvent handleShakeSickness
    rw [if_neg h1, if_pos ⟨h2, h3⟩, if_neg (fun hc => hc.elim h2 h3)]
  · intro h
    unfold shakeEvent
    rcases h with h | h <;> rw [h] <;> simp

/-- A pet already in the SICK state. -/
def sickSim : PetSim := { pet := defaultPet, currentState := STATE_SICK }

/-- C10 witness: the three shake outcomes at concrete states. -/
theorem shakeEvent_spec_witness :
    shakeEvent sleepingSim =
      { sleepingSim with currentState := STATE_IDLE } ∧
    shakeEvent initSim =
      { pet := { defaultPet with
          health := max 0 (defaultPet.health - 15)
        , happiness := max 0 (defaultPet.happiness - 20) }
      , currentState := STATE_SICK } ∧
    shakeEvent sickSim = sickSim := by
  refine ⟨(shakeEvent_spec sleepingSim).1 rfl, ?_,
    (shakeEvent_spec sickSim).2.2 (Or.inl rfl)⟩
  exact (shakeEvent_spec initSim).2.1 (by decide) (by decide) (by decide)
